import Mathlib

/-!
Shallow embedding of the operational bootstrap layer of the `ripple`
service: the unified error taxonomy (`src/utils/errors.rs`), the
configuration validator (`src/config/mod.rs`), the Prometheus metric
registration (`src/metrics/prometheus.rs`) and the health probes
(`src/utils/health.rs`), together with theorems settling the frozen
claims about them.
-/

deriving instance DecidableEq for Except

namespace Ripple

/-- Predicate `strContains s pat` holds when `pat` occurs verbatim as a contiguous
substring of `s`. -/
def strContains (s pat : String) : Prop := pat.data <:+: s.data

instance (s pat : String) : Decidable (strContains s pat) :=
  inferInstanceAs (Decidable (pat.data <:+: s.data))

theorem strContains_of_parts (s a b c : String) (h : s = a ++ b ++ c) :
    strContains s b := by
  subst h
  refine ⟨a.data, c.data, ?_⟩
  simp [String.data_append]

theorem strContains_append_right (a b : String) : strContains (a ++ b) b := by
  refine strContains_of_parts _ a b "" ?_
  simp

/-! ### Error taxonomy (`src/utils/errors.rs`)

Each Rust subsystem error enum becomes a Lean inductive; the `#[error]`
message template of each variant becomes the corresponding case of a
`render` function. -/

/-- Enum `ConfigurationError` from `src/utils/errors.rs`. -/
inductive ConfigurationError where
  | MissingField (field : String)
  | InvalidFormat (field value expected : String)
  | InvalidRange (field value min max : String)
  | ParseError (field value expected_type details : String)
  | FileNotFound (path details : String)
deriving DecidableEq, Repr

/-- Rendered message of a `ConfigurationError`, following its
`#[error(...)]` templates. -/
def ConfigurationError.render : ConfigurationError → String
  | .MissingField f => "Missing required configuration field: " ++ f
  | .InvalidFormat f v e =>
      "Invalid value for " ++ f ++ ": '" ++ v ++ "' (expected " ++ e ++ ")"
  | .InvalidRange f v mn mx =>
      f ++ " value '" ++ v ++ "' is out of range [" ++ mn ++ ", " ++ mx ++ "]"
  | .ParseError f v t d =>
      "Failed to parse " ++ f ++ ": '" ++ v ++ "' is not a valid " ++ t ++ " (" ++ d ++ ")"
  | .FileNotFound p d => "File not found at path '" ++ p ++ "': " ++ d

/-- Enum `NetworkError` from `src/utils/errors.rs`. -/
inductive NetworkError where
  | ConnectionFailed (endpoint details : String)
  | Timeout (endpoint : String) (timeout_ms : Nat)
  | TlsError (endpoint details : String)
  | DnsError (host details : String)
deriving DecidableEq, Repr

/-- Rendered message of a `NetworkError`. -/
def NetworkError.render : NetworkError → String
  | .ConnectionFailed e d => "Connection failed to " ++ e ++ ": " ++ d
  | .Timeout e t => "Request timed out after " ++ toString t ++ "ms to " ++ e
  | .TlsError e d => "TLS error connecting to " ++ e ++ ": " ++ d
  | .DnsError h d => "DNS resolution failed for " ++ h ++ ": " ++ d

/-- Enum `CacheError` from `src/utils/errors.rs`. -/
inductive CacheError where
  | ReadFailed (key details : String)
  | WriteFailed (key details : String)
  | InvalidationFailed (details : String)
  | CapacityExceeded (max_size : Nat)
deriving DecidableEq, Repr

/-- Rendered message of a `CacheError`. -/
def CacheError.render : CacheError → String
  | .ReadFailed k d => "Cache read failed for key '" ++ k ++ "': " ++ d
  | .WriteFailed k d => "Cache write failed for key '" ++ k ++ "': " ++ d
  | .InvalidationFailed d => "Cache invalidation failed: " ++ d
  | .CapacityExceeded m => "Cache capacity exceeded (max: " ++ toString m ++ ")"

/-- Enum `EmbeddingError` from `src/utils/errors.rs`. -/
inductive EmbeddingError where
  | ModelLoadFailed (path details : String)
  | InferenceFailed (details : String)
  | TokenizationFailed (details : String)
  | DimensionMismatch (expected actual : Nat)
deriving DecidableEq, Repr

/-- Rendered message of an `EmbeddingError`. -/
def EmbeddingError.render : EmbeddingError → String
  | .ModelLoadFailed p d => "Failed to load embedding model from '" ++ p ++ "': " ++ d
  | .InferenceFailed d => "Embedding inference failed: " ++ d
  | .TokenizationFailed d => "Tokenization failed for input: " ++ d
  | .DimensionMismatch e a =>
      "Invalid embedding dimensions: expected " ++ toString e ++ ", got " ++ toString a

/-- Enum `VectorStoreError` from `src/utils/errors.rs`. -/
inductive VectorStoreError where
  | ConnectionFailed (details : String)
  | CollectionNotFound (collection : String)
  | InsertionFailed (details : String)
  | SearchFailed (details : String)
  | DeletionFailed (details : String)
deriving DecidableEq, Repr

/-- Rendered message of a `VectorStoreError`. -/
def VectorStoreError.render : VectorStoreError → String
  | .ConnectionFailed d => "Vector store connection failed: " ++ d
  | .CollectionNotFound c => "Collection '" ++ c ++ "' not found"
  | .InsertionFailed d => "Vector insertion failed: " ++ d
  | .SearchFailed d => "Vector search failed: " ++ d
  | .DeletionFailed d => "Vector deletion failed: " ++ d

/-- Enum `UpstreamApiError` from `src/utils/errors.rs`. -/
inductive UpstreamApiError where
  | RequestFailed (provider details : String)
  | RateLimited (provider : String) (retry_after_secs : Nat)
  | InvalidResponse (provider details : String)
  | InvalidApiKey (provider : String)
deriving DecidableEq, Repr

/-- Rendered message of an `UpstreamApiError`. -/
def UpstreamApiError.render : UpstreamApiError → String
  | .RequestFailed p d => "Upstream API request failed (" ++ p ++ "): " ++ d
  | .RateLimited p r =>
      "Upstream API rate limited (" ++ p ++ "): retry after " ++ toString r ++ "s"
  | .InvalidResponse p d => "Invalid response from upstream (" ++ p ++ "): " ++ d
  | .InvalidApiKey p => "Upstream API key invalid for " ++ p

/-- Enum `AuthenticationError` from `src/utils/errors.rs`. -/
inductive AuthenticationError where
  | MissingApiKey
  | InvalidApiKey
  | ExpiredApiKey
  | InsufficientPermissions (tenant_id : String)
deriving DecidableEq, Repr

/-- Rendered message of an `AuthenticationError`. -/
def AuthenticationError.render : AuthenticationError → String
  | .MissingApiKey => "Missing API key in request"
  | .InvalidApiKey => "Invalid API key"
  | .ExpiredApiKey => "API key expired"
  | .InsufficientPermissions t => "Insufficient permissions for tenant '" ++ t ++ "'"

/-- Enum `ValidationError` from `src/utils/errors.rs`. -/
inductive ValidationError where
  | InvalidFormat (details : String)
  | MissingField (field : String)
  | ValueTooLarge (field max : String)
  | UnsupportedModel (model : String)
deriving DecidableEq, Repr

/-- Rendered message of a `ValidationError`. -/
def ValidationError.render : ValidationError → String
  | .InvalidFormat d => "Invalid request format: " ++ d
  | .MissingField f => "Missing required field: " ++ f
  | .ValueTooLarge f m => "Field '" ++ f ++ "' value too large: max " ++ m
  | .UnsupportedModel m => "Unsupported model: " ++ m

/-- The unified `RippleError` from `src/utils/errors.rs`; each constructor
is the target of the corresponding `#[from]` conversion. -/
inductive RippleError where
  | Configuration (e : ConfigurationError)
  | Network (e : NetworkError)
  | Cache (e : CacheError)
  | Embedding (e : EmbeddingError)
  | VectorStore (e : VectorStoreError)
  | UpstreamApi (e : UpstreamApiError)
  | Authentication (e : AuthenticationError)
  | Validation (e : ValidationError)
  | Internal (s : String)
deriving DecidableEq, Repr

/-- Rendered message of a `RippleError`, following its `#[error("...: {0}")]`
templates: the wrapped error's own message prefixed by the subsystem name. -/
def RippleError.render : RippleError → String
  | .Configuration e => "Configuration error: " ++ e.render
  | .Network e => "Network error: " ++ e.render
  | .Cache e => "Cache error: " ++ e.render
  | .Embedding e => "Embedding error: " ++ e.render
  | .VectorStore e => "Vector store error: " ++ e.render
  | .UpstreamApi e => "Upstream API error: " ++ e.render
  | .Authentication e => "Authentication error: " ++ e.render
  | .Validation e => "Validation error: " ++ e.render
  | .Internal s => "Internal error: " ++ s

/-! ### A model of `f64` for the configuration layer

The similarity threshold is an `f64`.  The validator only compares it with
`0.0` and `1.0` via IEEE-754 partial order (`(0.0..=1.0).contains`) and
renders it with `to_string`.  We model the values the configuration layer
can meet: NaN, the two infinities, and finite values carried exactly as
rationals; IEEE comparison makes every comparison with NaN false. -/
inductive F64 where
  | nan
  | negInf
  | inf
  | val (q : ℚ)
deriving DecidableEq, Repr

/-- IEEE-754 `<=` on the modelled `f64` values: any comparison involving
NaN is false, `-inf` is below and `inf` above every non-NaN value, finite
values compare as rationals. -/
def F64.le : F64 → F64 → Bool
  | .nan, _ => false
  | _, .nan => false
  | .negInf, _ => true
  | _, .negInf => false
  | _, .inf => true
  | .inf, _ => false
  | .val a, .val b => decide (a ≤ b)

/-- Smallest `k ≤ fuel` with `d ∣ rem * 10 ^ k`, if any. -/
def firstDecExp (rem d : Nat) : Nat → Option Nat
  | 0 => if rem * 1 % d == 0 then some 0 else none
  | fuel + 1 =>
    match firstDecExp rem d fuel with
    | some k => some k
    | none => if rem * 10 ^ (fuel + 1) % d == 0 then some (fuel + 1) else none

/-- Decimal rendering of a rational, used to model Rust's `f64::to_string`
on the finite values this development evaluates (all of which have a
finite decimal expansion, as every `f64` does); a non-terminating decimal
falls back to a fraction rendering that no theorem here relies on. -/
def ratDecString (q : ℚ) : String :=
  let sign := if q < 0 then "-" else ""
  let a := q.num.natAbs
  let d := q.den
  let intPart := a / d
  let rem := a % d
  if rem = 0 then sign ++ toString intPart
  else
    match firstDecExp rem d 40 with
    | some k =>
      let digits := toString (rem * 10 ^ k / d)
      let padded := String.mk (List.replicate (k - digits.length) '0') ++ digits
      sign ++ toString intPart ++ "." ++ padded
    | none => sign ++ toString a ++ "/" ++ toString d

/-- Model of Rust's `f64` `Display` (`to_string`) on the modelled values. -/
def F64.rustToString : F64 → String
  | .nan => "NaN"
  | .negInf => "-inf"
  | .inf => "inf"
  | .val q => ratDecString q

/-- Rust's `(0.0..=1.0).contains(&x)` under IEEE comparison. -/
def F64.inUnitRange (x : F64) : Bool :=
  F64.le (.val 0) x && F64.le x (.val 1)

/-! ### Character and string models for the validator -/

/-- Model of Rust's Unicode `char::is_alphanumeric` (general categories
Alphabetic, Nd, Nl, No), written out exactly on the Basic Latin and
Latin-1 Supplement blocks (code points below `0x100`), which cover every
string this development evaluates; theorems quantifying over strings
restrict to these blocks, where the model agrees with Rust. -/
def rustIsAlphanumeric (c : Char) : Bool :=
  let n := c.toNat
  c.isAlpha || c.isDigit
    || n == 0xAA || n == 0xB2 || n == 0xB3 || n == 0xB5
    || n == 0xB9 || n == 0xBA || n == 0xBC || n == 0xBD || n == 0xBE
    || (0xC0 ≤ n && n ≤ 0xD6) || (0xD8 ≤ n && n ≤ 0xF6)
    || (0xF8 ≤ n && n ≤ 0xFF)

/-- Model of Rust's `str::to_lowercase` restricted to the ASCII case
mapping; every string the validator compares against is ASCII. -/
def rustToLowercase (s : String) : String := String.mk (s.data.map Char.toLower)

/-- Rust's `str::starts_with`, computed on the character data. -/
def strStartsWith (s pre : String) : Bool := pre.data.isPrefixOf s.data

/-- Rust's `slice::contains` for string slices, computed on character
data. -/
def containsStr (l : List String) (x : String) : Bool :=
  l.any fun y => y.data == x.data

/-! ### Config and its validators (`src/config/mod.rs`) -/

/-- The `Config` struct from `src/config/mod.rs`.  `u16`/`u64`/`usize`
fields become `Nat` (the validators only bound them from below or within
ranges a `Nat` expresses directly); the `f64` field uses the `F64` model. -/
structure Config where
  host : String
  port : Nat
  workers : Nat
  qdrant_url : String
  qdrant_collection_name : String
  qdrant_api_key : Option String
  embedding_model_path : String
  embedding_dimension : Nat
  embedding_batch_size : Nat
  embedding_cache_size : Nat
  similarity_threshold : F64
  cache_ttl_hours : Nat
  max_cache_size : Nat
  enable_l1_cache : Bool
  l1_cache_size : Nat
  openai_api_key : Option String
  anthropic_api_key : Option String
  exa_api_key : Option String
  log_level : String
  log_format : String
  log_file_path : Option String
  metrics_enabled : Bool
  metrics_port : Nat
deriving DecidableEq, Repr

/-- Method `Config::validate_port`. -/
def Config.validate_port (port : Nat) (name : String) :
    Except ConfigurationError Unit :=
  if port < 1024 then
    .error (.InvalidRange name (toString port) "1024" "65535")
  else .ok ()

/-- Method `Config::validate_similarity_threshold`. -/
def Config.validate_similarity_threshold (c : Config) :
    Except ConfigurationError Unit :=
  if !c.similarity_threshold.inUnitRange then
    .error (.InvalidRange "SIMILARITY_THRESHOLD"
      c.similarity_threshold.rustToString "0.0" "1.0")
  else .ok ()

/-- Method `Config::validate_ttl`. -/
def Config.validate_ttl (c : Config) : Except ConfigurationError Unit :=
  if c.cache_ttl_hours = 0 then
    .error (.InvalidRange "CACHE_TTL_HOURS" "0" "1" "unlimited")
  else .ok ()

/-- Method `Config::validate_workers`. -/
def Config.validate_workers (c : Config) : Except ConfigurationError Unit :=
  if c.workers = 0 || c.workers > 128 then
    .error (.InvalidRange "RIPPLE_WORKERS" (toString c.workers) "1" "128")
  else .ok ()

/-- Method `Config::validate_cache_size`. -/
def Config.validate_cache_size (c : Config) : Except ConfigurationError Unit :=
  if c.max_cache_size = 0 then
    .error (.InvalidRange "MAX_CACHE_SIZE" "0" "1" "unlimited")
  else .ok ()

/-- Method `Config::validate_embedding_dimension`. -/
def Config.validate_embedding_dimension (c : Config) :
    Except ConfigurationError Unit :=
  if c.embedding_dimension = 0 || c.embedding_dimension > 4096 then
    .error (.InvalidRange "EMBEDDING_DIMENSION"
      (toString c.embedding_dimension) "1" "4096")
  else .ok ()

/-- Method `Config::validate_url`. -/
def Config.validate_url (url name : String) : Except ConfigurationError Unit :=
  if !(strStartsWith url "http://") && !(strStartsWith url "https://") then
    .error (.InvalidFormat name url "URL starting with http:// or https://")
  else .ok ()

/-- The valid log levels of `Config::validate_log_level`. -/
def valid_levels : List String := ["trace", "debug", "info", "warn", "error"]

/-- Method `Config::validate_log_level`. -/
def Config.validate_log_level (c : Config) : Except ConfigurationError Unit :=
  if !(containsStr valid_levels (rustToLowercase c.log_level)) then
    .error (.InvalidFormat "LOG_LEVEL" c.log_level
      "One of: trace, debug, info, warn, error")
  else .ok ()

/-- The valid log formats of `Config::validate_log_format`. -/
def valid_formats : List String := ["text", "json"]

/-- Method `Config::validate_log_format`. -/
def Config.validate_log_format (c : Config) : Except ConfigurationError Unit :=
  if !(containsStr valid_formats (rustToLowercase c.log_format)) then
    .error (.InvalidFormat "LOG_FORMAT" c.log_format "One of: text, json")
  else .ok ()

/-- Method `Config::validate_collection_name`. -/
def Config.validate_collection_name (c : Config) :
    Except ConfigurationError Unit :=
  if c.qdrant_collection_name.data.isEmpty then
    .error (.MissingField "QDRANT_COLLECTION_NAME")
  else if !(c.qdrant_collection_name.data.all fun ch =>
      rustIsAlphanumeric ch || ch == '_' || ch == '-') then
    .error (.InvalidFormat "QDRANT_COLLECTION_NAME" c.qdrant_collection_name
      "Alphanumeric characters, underscores, and hyphens only")
  else .ok ()

/-- Method `Config::validate`: runs each validator in source order, stopping at
the first failure (the `?` operator). -/
def Config.validate (c : Config) : Except ConfigurationError Unit := do
  Config.validate_port c.port "RIPPLE_PORT"
  Config.validate_port c.metrics_port "METRICS_PORT"
  c.validate_similarity_threshold
  c.validate_ttl
  c.validate_workers
  c.validate_cache_size
  c.validate_embedding_dimension
  Config.validate_url c.qdrant_url "QDRANT_URL"
  c.validate_log_level
  c.validate_log_format
  c.validate_collection_name

/-- Function `parse_env` from `src/config/mod.rs`.  The process environment is
passed in as the looked-up value of the variable (`none` = absent), and
the `FromStr` instance of the target type as an explicit parser returning
either the value or the parser's error message. -/
def parse_env {T : Type} (envVal : Option String) (key : String) (default : T)
    (typeName : String) (parse : String → Except String T) :
    Except ConfigurationError T :=
  match envVal with
  | some val =>
    match parse val with
    | .ok t => .ok t
    | .error e => .error (.ParseError key val typeName e)
  | none => .ok default

/-- Model of Rust's `u16::from_str`: optional sign, at least one ASCII
digit, value below `2 ^ 16`; error strings follow `ParseIntError`'s
`Display`. -/
def parse_u16 (s : String) : Except String Nat :=
  let body := if strStartsWith s "+" then String.mk (s.data.drop 1) else s
  if body.data.isEmpty then .error "cannot parse integer from empty string"
  else if !(body.data.all Char.isDigit) then
    .error "invalid digit found in string"
  else
    let n := body.data.foldl (fun a c => a * 10 + (c.toNat - '0'.toNat)) 0
    if n < 65536 then .ok n
    else .error "number too large to fit in target type"

/-! ### Metrics registration (`src/metrics/prometheus.rs`)

A Prometheus `Registry` is modelled by the list of fully-qualified names
of the collectors registered so far; `Registry::register` returns
`Err(AlreadyReg)` when a collector with the same descriptor is already
present.  `register_metrics` registers the twelve instruments in source
order, calling `.unwrap()` after each — a failed registration therefore
panics, modelled as `none`. -/

/-- Model of `prometheus::Registry::register` on the name-set model. -/
def Registry.register (r : List String) (id : String) :
    Except Unit (List String) :=
  if r.contains id then .error () else .ok (r ++ [id])

/-- The names of the twelve instruments, in the order `register_metrics`
registers them. -/
def metricIds : List String :=
  ["ripple_requests_total", "ripple_active_requests",
   "ripple_request_duration_seconds", "ripple_cache_hits_total",
   "ripple_cache_misses_total", "ripple_cache_size",
   "ripple_cache_evictions_total", "ripple_embedding_duration_seconds",
   "ripple_upstream_duration_seconds", "ripple_upstream_errors_total",
   "ripple_cost_saved_usd", "ripple_errors_total"]

/-- One `REGISTRY.register(...).unwrap()` statement: propagates an earlier
panic, panics (`none`) when `register` returns `Err`. -/
def registerStep (r : Option (List String)) (id : String) :
    Option (List String) :=
  match r with
  | none => none
  | some st =>
    match Registry.register st id with
    | .ok st2 => some st2
    | .error _ => none

/-- Function `register_metrics`: the twelve unwrapped registrations in source
order, starting from the registry state `r`; `none` means the call
panicked. -/
def register_metrics (r : List String) : Option (List String) :=
  metricIds.foldl registerStep (some r)

/-! ### Health probes (`src/utils/health.rs`)

The single outbound HTTP GET that `check_qdrant` performs is modelled by
the outcome handed to the probe: a response with a numeric status code,
or a request error — reqwest surfaces both a connection failure and an
elapsed timeout as `Err(_)`, so each gets its own constructor mapping to
the same `Err` arm. -/
inductive HttpOutcome where
  | response (status : Nat)
  | connError
  | timedOut
deriving DecidableEq, Repr

/-- Rust's `reqwest::StatusCode::is_success`: `200..=299`. -/
def statusIsSuccess (s : Nat) : Bool := 200 ≤ s && s < 300

/-- The timeout, in seconds, that `check_qdrant` sets on its request. -/
def qdrant_timeout_secs : Nat := 3

/-- The URL `check_qdrant` requests. -/
def qdrant_health_url (qdrant_url : String) : String := qdrant_url ++ "/healthz"

/-- Function `check_qdrant`: true exactly when the single outbound call produced a
success-status response. -/
def check_qdrant (o : HttpOutcome) : Bool :=
  match o with
  | .response s => statusIsSuccess s
  | .connError => false
  | .timedOut => false

/-- The JSON body of the readiness probe, structurally. -/
structure ReadinessBody where
  status : String
  qdrant : String
deriving DecidableEq, Repr

/-- Handler `readiness`: HTTP status code and body as a function of the one
outbound check's outcome. -/
def readiness (o : HttpOutcome) : Nat × ReadinessBody :=
  if check_qdrant o then
    (200, { status := "ready", qdrant := "healthy" })
  else
    (503, { status := "not_ready", qdrant := "unhealthy" })

/-- The JSON body of the detailed-status probe, structurally: aggregate
status, version, uptime, per-component status, and the configuration
snapshot. -/
structure DetailedBody where
  status : String
  version : String
  uptime_seconds : Nat
  qdrant_status : String
  qdrant_url : String
  embedding_status : String
  embedding_path : String
  cache_ttl_hours : Nat
  similarity_threshold : F64
  max_cache_size : Nat
deriving DecidableEq, Repr

/-- Handler `detailed_status`: the version identifier (`CARGO_PKG_VERSION`, a
compile-time constant outside `src/`) and the elapsed uptime are passed
in as parameters. -/
def detailed_status (c : Config) (o : HttpOutcome) (uptime_secs : Nat)
    (version : String) : Nat × DetailedBody :=
  let qdrant_ok := check_qdrant o
  let overall := if qdrant_ok then "healthy" else "degraded"
  (200,
   { status := overall
     version := version
     uptime_seconds := uptime_secs
     qdrant_status := if qdrant_ok then "healthy" else "unhealthy"
     qdrant_url := c.qdrant_url
     embedding_status := "not_loaded"
     embedding_path := c.embedding_model_path
     cache_ttl_hours := c.cache_ttl_hours
     similarity_threshold := c.similarity_threshold
     max_cache_size := c.max_cache_size })

/-! ### A concrete configuration

The default configuration of `make_default` in the tests of
`src/config/mod.rs` (which is also the all-defaults result of `load`),
used as the concrete instance in witnesses and counterexamples. -/
def baseConfig : Config where
  host := "0.0.0.0"
  port := 8080
  workers := 4
  qdrant_url := "http://localhost:6333"
  qdrant_collection_name := "cache_vectors"
  qdrant_api_key := none
  embedding_model_path := "./models/nomic-embed-text.onnx"
  embedding_dimension := 768
  embedding_batch_size := 10
  embedding_cache_size := 10000
  similarity_threshold := .val (mkRat 85 100)
  cache_ttl_hours := 168
  max_cache_size := 10000000
  enable_l1_cache := true
  l1_cache_size := 10000
  openai_api_key := none
  anthropic_api_key := none
  exa_api_key := none
  log_level := "info"
  log_format := "text"
  log_file_path := none
  metrics_enabled := true
  metrics_port := 9090

/-- The code-level condition under which every rule of `Config::validate`
passes: both ports at least 1024, similarity threshold inside `[0, 1]`
under IEEE comparison, TTL and cache size at least 1, workers in
`[1, 128]`, embedding dimension in `[1, 4096]`, store URL with an
`http://` or `https://` scheme, log level and format in their valid sets
case-insensitively, and a non-empty collection name over alphanumerics,
underscore and hyphen. -/
def ValidConfig (c : Config) : Prop :=
  1024 ≤ c.port ∧
  1024 ≤ c.metrics_port ∧
  c.similarity_threshold.inUnitRange = true ∧
  1 ≤ c.cache_ttl_hours ∧
  1 ≤ c.workers ∧ c.workers ≤ 128 ∧
  1 ≤ c.max_cache_size ∧
  1 ≤ c.embedding_dimension ∧ c.embedding_dimension ≤ 4096 ∧
  (strStartsWith c.qdrant_url "http://" = true ∨
    strStartsWith c.qdrant_url "https://" = true) ∧
  rustToLowercase c.log_level ∈ valid_levels ∧
  rustToLowercase c.log_format ∈ valid_formats ∧
  c.qdrant_collection_name ≠ "" ∧
  (∀ ch ∈ c.qdrant_collection_name.data,
    rustIsAlphanumeric ch = true ∨ ch = '_' ∨ ch = '-')

instance (c : Config) : Decidable (ValidConfig c) := by
  unfold ValidConfig
  infer_instance

/-! ### Helper lemmas -/

theorem error_bind {E A B : Type} (e : E) (f : A → Except E B) :
    (Except.error e : Except E A) >>= f = Except.error e := rfl

theorem ok_bind {E A B : Type} (a : A) (f : A → Except E B) :
    (Except.ok a : Except E A) >>= f = f a := rfl

theorem bind_unit_ok {E B : Type} (x : Except E Unit) (f : Unit → Except E B)
    (b : B) : (x >>= f = Except.ok b) ↔ (x = .ok () ∧ f () = .ok b) := by
  cases x with
  | error e => simp [error_bind]
  | ok a => cases a; simp [ok_bind]

theorem containsStr_iff (l : List String) (x : String) :
    containsStr l x = true ↔ x ∈ l := by
  unfold containsStr
  rw [List.any_eq_true]
  constructor
  · rintro ⟨y, hy, he⟩
    have hx : y = x := String.ext (by simpa using he)
    exact hx ▸ hy
  · intro h
    exact ⟨x, h, by simp⟩

theorem str_eq_empty_iff (s : String) : s = "" ↔ s.data = [] :=
  String.ext_iff

theorem validate_port_eq_ok (p : Nat) (n : String) :
    Config.validate_port p n = .ok () ↔ 1024 ≤ p := by
  unfold Config.validate_port
  split_ifs with h <;> simp <;> omega

theorem validate_port_eq_err (p : Nat) (n : String) (h : p < 1024) :
    Config.validate_port p n =
      .error (.InvalidRange n (toString p) "1024" "65535") := by
  unfold Config.validate_port
  rw [if_pos h]

theorem validate_sim_eq_ok (c : Config) :
    c.validate_similarity_threshold = .ok () ↔
      c.similarity_threshold.inUnitRange = true := by
  unfold Config.validate_similarity_threshold
  split_ifs with h <;> simp_all

theorem validate_sim_eq_err (c : Config)
    (h : c.similarity_threshold.inUnitRange = false) :
    c.validate_similarity_threshold =
      .error (.InvalidRange "SIMILARITY_THRESHOLD"
        c.similarity_threshold.rustToString "0.0" "1.0") := by
  unfold Config.validate_similarity_threshold
  rw [if_pos (by simp [h])]

theorem validate_ttl_eq_ok (c : Config) :
    c.validate_ttl = .ok () ↔ 1 ≤ c.cache_ttl_hours := by
  unfold Config.validate_ttl
  split_ifs with h <;> simp <;> omega

theorem validate_ttl_eq_err (c : Config) (h : c.cache_ttl_hours = 0) :
    c.validate_ttl = .error (.InvalidRange "CACHE_TTL_HOURS" "0" "1" "unlimited") := by
  unfold Config.validate_ttl
  rw [if_pos h]

theorem validate_workers_eq_ok (c : Config) :
    c.validate_workers = .ok () ↔ 1 ≤ c.workers ∧ c.workers ≤ 128 := by
  unfold Config.validate_workers
  split_ifs with h <;> simp_all <;> omega

theorem validate_workers_eq_err (c : Config)
    (h : c.workers = 0 ∨ 128 < c.workers) :
    c.validate_workers =
      .error (.InvalidRange "RIPPLE_WORKERS" (toString c.workers) "1" "128") := by
  unfold Config.validate_workers
  rw [if_pos (by simpa using h)]

theorem validate_cache_eq_ok (c : Config) :
    c.validate_cache_size = .ok () ↔ 1 ≤ c.max_cache_size := by
  unfold Config.validate_cache_size
  split_ifs with h <;> simp <;> omega

theorem validate_cache_eq_err (c : Config) (h : c.max_cache_size = 0) :
    c.validate_cache_size =
      .error (.InvalidRange "MAX_CACHE_SIZE" "0" "1" "unlimited") := by
  unfold Config.validate_cache_size
  rw [if_pos h]

theorem validate_dim_eq_ok (c : Config) :
    c.validate_embedding_dimension = .ok () ↔
      1 ≤ c.embedding_dimension ∧ c.embedding_dimension ≤ 4096 := by
  unfold Config.validate_embedding_dimension
  split_ifs with h <;> simp_all <;> omega

theorem validate_dim_eq_err (c : Config)
    (h : c.embedding_dimension = 0 ∨ 4096 < c.embedding_dimension) :
    c.validate_embedding_dimension =
      .error (.InvalidRange "EMBEDDING_DIMENSION"
        (toString c.embedding_dimension) "1" "4096") := by
  unfold Config.validate_embedding_dimension
  rw [if_pos (by simpa using h)]

theorem validate_url_eq_ok (url n : String) :
    Config.validate_url url n = .ok () ↔
      (strStartsWith url "http://" = true ∨ strStartsWith url "https://" = true) := by
  unfold Config.validate_url
  cases hb : strStartsWith url "http://" <;>
    cases hb2 : strStartsWith url "https://" <;> simp_all

theorem validate_url_eq_err (url n : String)
    (h1 : strStartsWith url "http://" = false)
    (h2 : strStartsWith url "https://" = false) :
    Config.validate_url url n =
      .error (.InvalidFormat n url "URL starting with http:// or https://") := by
  unfold Config.validate_url
  rw [if_pos (by simp [h1, h2])]

theorem validate_level_eq_ok (c : Config) :
    c.validate_log_level = .ok () ↔ rustToLowercase c.log_level ∈ valid_levels := by
  unfold Config.validate_log_level
  rw [← containsStr_iff]
  split_ifs with h <;> simp_all

theorem validate_level_eq_err (c : Config)
    (h : containsStr valid_levels (rustToLowercase c.log_level) = false) :
    c.validate_log_level =
      .error (.InvalidFormat "LOG_LEVEL" c.log_level
        "One of: trace, debug, info, warn, error") := by
  unfold Config.validate_log_level
  rw [if_pos (by simp [h])]

theorem validate_format_eq_ok (c : Config) :
    c.validate_log_format = .ok () ↔ rustToLowercase c.log_format ∈ valid_formats := by
  unfold Config.validate_log_format
  rw [← containsStr_iff]
  split_ifs with h <;> simp_all

theorem validate_format_eq_err (c : Config)
    (h : containsStr valid_formats (rustToLowercase c.log_format) = false) :
    c.validate_log_format =
      .error (.InvalidFormat "LOG_FORMAT" c.log_format "One of: text, json") := by
  unfold Config.validate_log_format
  rw [if_pos (by simp [h])]

theorem validate_collname_eq_ok (c : Config) :
    c.validate_collection_name = .ok () ↔
      (c.qdrant_collection_name ≠ "" ∧
        ∀ ch ∈ c.qdrant_collection_name.data,
          rustIsAlphanumeric ch = true ∨ ch = '_' ∨ ch = '-') := by
  unfold Config.validate_collection_name
  by_cases h1 : c.qdrant_collection_name.data.isEmpty = true
  · rw [if_pos h1]
    rw [List.isEmpty_iff] at h1
    simp [str_eq_empty_iff, h1]
  · rw [if_neg h1]
    have h1' : c.qdrant_collection_name.data ≠ [] := by
      simpa [List.isEmpty_iff] using h1
    by_cases h2 : (c.qdrant_collection_name.data.all fun ch =>
        rustIsAlphanumeric ch || ch == '_' || ch == '-') = true
    · rw [if_neg (by simp [h2])]
      simp only [List.all_eq_true, Bool.or_eq_true, beq_iff_eq, or_assoc] at h2
      simp [str_eq_empty_iff, h1']
      exact h2
    · rw [if_pos (by simpa using h2)]
      simp only [List.all_eq_true, Bool.or_eq_true, beq_iff_eq, or_assoc] at h2
      constructor
      · intro hx
        exact absurd hx (by simp)
      · rintro ⟨-, hall⟩
        exact (h2 hall).elim

theorem validate_collname_eq_err_empty (c : Config)
    (h : c.qdrant_collection_name = "") :
    c.validate_collection_name = .error (.MissingField "QDRANT_COLLECTION_NAME") := by
  unfold Config.validate_collection_name
  rw [if_pos (by rw [str_eq_empty_iff, ← List.isEmpty_iff] at h; exact h)]

theorem validate_collname_eq_err_format (c : Config)
    (h1 : ¬ c.qdrant_collection_name.data.isEmpty = true)
    (h2 : (c.qdrant_collection_name.data.all fun ch =>
      rustIsAlphanumeric ch || ch == '_' || ch == '-') = false) :
    c.validate_collection_name =
      .error (.InvalidFormat "QDRANT_COLLECTION_NAME" c.qdrant_collection_name
        "Alphanumeric characters, underscores, and hyphens only") := by
  unfold Config.validate_collection_name
  rw [if_neg h1, if_pos (by simp [h2])]

/-- Validator `Config::validate` succeeds exactly on the configurations satisfying
every rule. -/
theorem validate_eq_ok_iff (c : Config) :
    c.validate = .ok () ↔ ValidConfig c := by
  unfold Config.validate ValidConfig
  simp only [bind_unit_ok, validate_port_eq_ok, validate_sim_eq_ok,
    validate_ttl_eq_ok, validate_workers_eq_ok, validate_cache_eq_ok,
    validate_dim_eq_ok, validate_url_eq_ok, validate_level_eq_ok,
    validate_format_eq_ok, validate_collname_eq_ok]
  tauto

theorem strContains_render_range_field (f v mn mx : String) :
    strContains (ConfigurationError.render (.InvalidRange f v mn mx)) f := by
  unfold strContains ConfigurationError.render
  exact ⟨[], (" value '" ++ v ++ "' is out of range [" ++ mn ++ ", " ++ mx ++ "]").data,
    by simp [String.data_append, List.append_assoc]⟩

theorem strContains_render_format_field (f v e : String) :
    strContains (ConfigurationError.render (.InvalidFormat f v e)) f := by
  unfold strContains ConfigurationError.render
  exact ⟨"Invalid value for ".data, (": '" ++ v ++ "' (expected " ++ e ++ ")").data,
    by simp [String.data_append, List.append_assoc]⟩

theorem strContains_render_missing_field (f : String) :
    strContains (ConfigurationError.render (.MissingField f)) f := by
  unfold strContains ConfigurationError.render
  exact ⟨"Missing required configuration field: ".data, [],
    by simp [String.data_append]⟩

/-! ### The claims -/

/-- C1: the spec requires that a second call of `register_metrics` in the
same process completes without panicking.  The code violates this: the
first call (on the fresh registry) registers all twelve instruments, and
a second call starting from that state panics — every
`REGISTRY.register(...).unwrap()` hits `AlreadyReg` on the first
instrument, so the modelled run returns `none` (panic). -/
theorem claim_C1_register_metrics_second_call_panics :
    register_metrics [] = some metricIds ∧ register_metrics metricIds = none := by
  constructor
  · decide
  · decide

/-- C3 counterexample: the rendered message of `RippleError::Internal(s)`
is not the provided string verbatim — for `s = "boom"` the rendering is
`"Internal error: boom"`, not `"boom"`. -/
theorem claim_C3_counterexample :
    (RippleError.Internal "boom").render ≠ "boom" := by decide

/-- C3 (amended): the rendered message of `RippleError::Internal(s)` is
the provided string `s` prefixed by the fixed tag `"Internal error: "`;
`s` itself appears verbatim as a substring. -/
theorem claim_C3_internal_renders_prefixed (s : String) :
    (RippleError.Internal s).render = "Internal error: " ++ s ∧
    strContains (RippleError.Internal s).render s :=
  ⟨rfl, strContains_append_right "Internal error: " s⟩

/-- C7: converting any error of the eight subsystem kinds into
`RippleError` preserves the original rendered message: the unified
rendering is exactly a fixed subsystem-name prefix followed by the
original message, so the original message is a verbatim substring. -/
theorem claim_C7_conversion_preserves_message :
    (∀ e : ConfigurationError,
      (RippleError.Configuration e).render = "Configuration error: " ++ e.render ∧
      strContains (RippleError.Configuration e).render e.render) ∧
    (∀ e : NetworkError,
      (RippleError.Network e).render = "Network error: " ++ e.render ∧
      strContains (RippleError.Network e).render e.render) ∧
    (∀ e : CacheError,
      (RippleError.Cache e).render = "Cache error: " ++ e.render ∧
      strContains (RippleError.Cache e).render e.render) ∧
    (∀ e : EmbeddingError,
      (RippleError.Embedding e).render = "Embedding error: " ++ e.render ∧
      strContains (RippleError.Embedding e).render e.render) ∧
    (∀ e : VectorStoreError,
      (RippleError.VectorStore e).render = "Vector store error: " ++ e.render ∧
      strContains (RippleError.VectorStore e).render e.render) ∧
    (∀ e : UpstreamApiError,
      (RippleError.UpstreamApi e).render = "Upstream API error: " ++ e.render ∧
      strContains (RippleError.UpstreamApi e).render e.render) ∧
    (∀ e : AuthenticationError,
      (RippleError.Authentication e).render = "Authentication error: " ++ e.render ∧
      strContains (RippleError.Authentication e).render e.render) ∧
    (∀ e : ValidationError,
      (RippleError.Validation e).render = "Validation error: " ++ e.render ∧
      strContains (RippleError.Validation e).render e.render) :=
  ⟨fun e => ⟨rfl, strContains_append_right _ e.render⟩,
   fun e => ⟨rfl, strContains_append_right _ e.render⟩,
   fun e => ⟨rfl, strContains_append_right _ e.render⟩,
   fun e => ⟨rfl, strContains_append_right _ e.render⟩,
   fun e => ⟨rfl, strContains_append_right _ e.render⟩,
   fun e => ⟨rfl, strContains_append_right _ e.render⟩,
   fun e => ⟨rfl, strContains_append_right _ e.render⟩,
   fun e => ⟨rfl, strContains_append_right _ e.render⟩⟩

/-- C8: the readiness probe issues its one outbound call to the
configured store's `/healthz` path with a 3-second timeout; a
success-status response yields HTTP 200 with status `"ready"`, and any
failing outcome — a non-success status, a connection error, or a timeout
(the last two being the same `Err` arm, hence treated identically) —
yields HTTP 503 with status `"not_ready"`. -/
theorem claim_C8_readiness :
    qdrant_timeout_secs = 3 ∧
    (∀ url : String, qdrant_health_url url = url ++ "/healthz") ∧
    (∀ s : Nat, statusIsSuccess s = true →
      readiness (.response s) = (200, { status := "ready", qdrant := "healthy" })) ∧
    (∀ o : HttpOutcome, check_qdrant o = false →
      readiness o = (503, { status := "not_ready", qdrant := "unhealthy" })) ∧
    readiness .timedOut = readiness .connError := by
  refine ⟨rfl, fun _ => rfl, ?_, ?_, rfl⟩
  · intro s h
    simp [readiness, check_qdrant, h]
  · intro o h
    simp [readiness, h]

/-- C8 witness: a 200 response reports ready; a connection error reports
not-ready with HTTP 503. -/
theorem claim_C8_readiness_witness :
    readiness (.response 200) = (200, { status := "ready", qdrant := "healthy" }) ∧
    readiness .connError = (503, { status := "not_ready", qdrant := "unhealthy" }) :=
  ⟨claim_C8_readiness.2.2.1 200 (by decide),
   claim_C8_readiness.2.2.2.1 .connError (by decide)⟩

/-- C9: the detailed-status probe always answers HTTP 200; its body
reports `"healthy"` or `"degraded"` according to the dependency check,
the uptime and version passed in, the store's status and URL, the
embedding engine as not loaded, and the configuration snapshot (cache
TTL, similarity threshold, max cache size). -/
theorem claim_C9_detailed_status (c : Config) (o : HttpOutcome) (u : Nat)
    (v : String) :
    (detailed_status c o u v).1 = 200 ∧
    (detailed_status c o u v).2.status =
      (if check_qdrant o then "healthy" else "degraded") ∧
    (detailed_status c o u v).2.uptime_seconds = u ∧
    (detailed_status c o u v).2.version = v ∧
    (detailed_status c o u v).2.qdrant_status =
      (if check_qdrant o then "healthy" else "unhealthy") ∧
    (detailed_status c o u v).2.qdrant_url = c.qdrant_url ∧
    (detailed_status c o u v).2.embedding_status = "not_loaded" ∧
    (detailed_status c o u v).2.cache_ttl_hours = c.cache_ttl_hours ∧
    (detailed_status c o u v).2.similarity_threshold = c.similarity_threshold ∧
    (detailed_status c o u v).2.max_cache_size = c.max_cache_size :=
  ⟨rfl, rfl, rfl, rfl, rfl, rfl, rfl, rfl, rfl, rfl⟩

/-- C5: `validate` succeeds on every configuration whose fields lie in
the valid ranges (the configuration value itself is immutable — `validate`
borrows it and returns unit, so the field values are unchanged by
construction); all range boundaries are inclusive, as the boundary
instances for workers, similarity threshold and embedding dimension
show. -/
theorem claim_C5_valid_ranges_validate :
    (∀ c : Config, ValidConfig c → c.validate = .ok ()) ∧
    Config.validate { baseConfig with workers := 1 } = .ok () ∧
    Config.validate { baseConfig with workers := 128 } = .ok () ∧
    Config.validate { baseConfig with similarity_threshold := .val 0 } = .ok () ∧
    Config.validate { baseConfig with similarity_threshold := .val 1 } = .ok () ∧
    Config.validate { baseConfig with embedding_dimension := 1 } = .ok () ∧
    Config.validate { baseConfig with embedding_dimension := 4096 } = .ok () := by
  refine ⟨fun c h => (validate_eq_ok_iff c).2 h, ?_, ?_, ?_, ?_, ?_, ?_⟩ <;> decide

/-- C5 witness: the default configuration is in the valid ranges and
validates. -/
theorem claim_C5_witness :
    ValidConfig baseConfig ∧ baseConfig.validate = .ok () :=
  ⟨by decide, claim_C5_valid_ranges_validate.1 baseConfig (by decide)⟩

/-- C4 counterexample: with the collection name `"é"` and every other
field at its default, `validate` succeeds — `load` returns a `Config` —
even though the spec table's collection-name rule (characters in
`[A-Za-z0-9_-]` only) is violated by that name, so `load` does not
guarantee every rule of the spec's table as written. -/
theorem claim_C4_counterexample :
    Config.validate { baseConfig with qdrant_collection_name := "é" } = .ok () ∧
    (("é" : String).data.all fun ch =>
      ch.isAlpha || ch.isDigit || ch == '_' || ch == '-') = false := by
  refine ⟨by decide, by decide⟩

/-- C4 (amended): a validated configuration satisfies every rule with the
collection-name alphabet read as the code's Unicode
`char::is_alphanumeric` plus underscore and hyphen (the `ValidConfig`
predicate) rather than the spec table's `[A-Za-z0-9_-]`; and for each
rule, an input violating that rule (the rules checked before it passing)
yields exactly that rule's error, carrying the offending field's
environment-variable name, the actual value and the expected bounds or
format, with the field name contained verbatim in the rendered
message. -/
theorem claim_C4_validate_errors_identify_rule :
    (∀ c : Config, c.validate = .ok () → ValidConfig c) ∧
    (∀ c : Config, c.port < 1024 →
      c.validate = .error (.InvalidRange "RIPPLE_PORT" (toString c.port) "1024" "65535") ∧
      strContains (ConfigurationError.render
        (.InvalidRange "RIPPLE_PORT" (toString c.port) "1024" "65535")) "RIPPLE_PORT") ∧
    (∀ c : Config, 1024 ≤ c.port → c.metrics_port < 1024 →
      c.validate = .error (.InvalidRange "METRICS_PORT" (toString c.metrics_port) "1024" "65535") ∧
      strContains (ConfigurationError.render
        (.InvalidRange "METRICS_PORT" (toString c.metrics_port) "1024" "65535")) "METRICS_PORT") ∧
    (∀ c : Config, 1024 ≤ c.port → 1024 ≤ c.metrics_port →
      c.similarity_threshold.inUnitRange = false →
      c.validate = .error (.InvalidRange "SIMILARITY_THRESHOLD"
        c.similarity_threshold.rustToString "0.0" "1.0") ∧
      strContains (ConfigurationError.render (.InvalidRange "SIMILARITY_THRESHOLD"
        c.similarity_threshold.rustToString "0.0" "1.0")) "SIMILARITY_THRESHOLD") ∧
    (∀ c : Config, 1024 ≤ c.port → 1024 ≤ c.metrics_port →
      c.similarity_threshold.inUnitRange = true → c.cache_ttl_hours = 0 →
      c.validate = .error (.InvalidRange "CACHE_TTL_HOURS" "0" "1" "unlimited") ∧
      strContains (ConfigurationError.render
        (.InvalidRange "CACHE_TTL_HOURS" "0" "1" "unlimited")) "CACHE_TTL_HOURS") ∧
    (∀ c : Config, 1024 ≤ c.port → 1024 ≤ c.metrics_port →
      c.similarity_threshold.inUnitRange = true → 1 ≤ c.cache_ttl_hours →
      (c.workers = 0 ∨ 128 < c.workers) →
      c.validate = .error (.InvalidRange "RIPPLE_WORKERS" (toString c.workers) "1" "128") ∧
      strContains (ConfigurationError.render
        (.InvalidRange "RIPPLE_WORKERS" (toString c.workers) "1" "128")) "RIPPLE_WORKERS") ∧
    (∀ c : Config, 1024 ≤ c.port → 1024 ≤ c.metrics_port →
      c.similarity_threshold.inUnitRange = true → 1 ≤ c.cache_ttl_hours →
      1 ≤ c.workers → c.workers ≤ 128 → c.max_cache_size = 0 →
      c.validate = .error (.InvalidRange "MAX_CACHE_SIZE" "0" "1" "unlimited") ∧
      strContains (ConfigurationError.render
        (.InvalidRange "MAX_CACHE_SIZE" "0" "1" "unlimited")) "MAX_CACHE_SIZE") ∧
    (∀ c : Config, 1024 ≤ c.port → 1024 ≤ c.metrics_port →
      c.similarity_threshold.inUnitRange = true → 1 ≤ c.cache_ttl_hours →
      1 ≤ c.workers → c.workers ≤ 128 → 1 ≤ c.max_cache_size →
      (c.embedding_dimension = 0 ∨ 4096 < c.embedding_dimension) →
      c.validate = .error (.InvalidRange "EMBEDDING_DIMENSION"
        (toString c.embedding_dimension) "1" "4096") ∧
      strContains (ConfigurationError.render (.InvalidRange "EMBEDDING_DIMENSION"
        (toString c.embedding_dimension) "1" "4096")) "EMBEDDING_DIMENSION") ∧
    (∀ c : Config, 1024 ≤ c.port → 1024 ≤ c.metrics_port →
      c.similarity_threshold.inUnitRange = true → 1 ≤ c.cache_ttl_hours →
      1 ≤ c.workers → c.workers ≤ 128 → 1 ≤ c.max_cache_size →
      1 ≤ c.embedding_dimension → c.embedding_dimension ≤ 4096 →
      strStartsWith c.qdrant_url "http://" = false →
      strStartsWith c.qdrant_url "https://" = false →
      c.validate = .error (.InvalidFormat "QDRANT_URL" c.qdrant_url
        "URL starting with http:// or https://") ∧
      strContains (ConfigurationError.render (.InvalidFormat "QDRANT_URL"
        c.qdrant_url "URL starting with http:// or https://")) "QDRANT_URL") ∧
    (∀ c : Config, 1024 ≤ c.port → 1024 ≤ c.metrics_port →
      c.similarity_threshold.inUnitRange = true → 1 ≤ c.cache_ttl_hours →
      1 ≤ c.workers → c.workers ≤ 128 → 1 ≤ c.max_cache_size →
      1 ≤ c.embedding_dimension → c.embedding_dimension ≤ 4096 →
      (strStartsWith c.qdrant_url "http://" = true ∨
        strStartsWith c.qdrant_url "https://" = true) →
      containsStr valid_levels (rustToLowercase c.log_level) = false →
      c.validate = .error (.InvalidFormat "LOG_LEVEL" c.log_level
        "One of: trace, debug, info, warn, error") ∧
      strContains (ConfigurationError.render (.InvalidFormat "LOG_LEVEL"
        c.log_level "One of: trace, debug, info, warn, error")) "LOG_LEVEL") ∧
    (∀ c : Config, 1024 ≤ c.port → 1024 ≤ c.metrics_port →
      c.similarity_threshold.inUnitRange = true → 1 ≤ c.cache_ttl_hours →
      1 ≤ c.workers → c.workers ≤ 128 → 1 ≤ c.max_cache_size →
      1 ≤ c.embedding_dimension → c.embedding_dimension ≤ 4096 →
      (strStartsWith c.qdrant_url "http://" = true ∨
        strStartsWith c.qdrant_url "https://" = true) →
      rustToLowercase c.log_level ∈ valid_levels →
      containsStr valid_formats (rustToLowercase c.log_format) = false →
      c.validate = .error (.InvalidFormat "LOG_FORMAT" c.log_format
        "One of: text, json") ∧
      strContains (ConfigurationError.render (.InvalidFormat "LOG_FORMAT"
        c.log_format "One of: text, json")) "LOG_FORMAT") ∧
    (∀ c : Config, 1024 ≤ c.port → 1024 ≤ c.metrics_port →
      c.similarity_threshold.inUnitRange = true → 1 ≤ c.cache_ttl_hours →
      1 ≤ c.workers → c.workers ≤ 128 → 1 ≤ c.max_cache_size →
      1 ≤ c.embedding_dimension → c.embedding_dimension ≤ 4096 →
      (strStartsWith c.qdrant_url "http://" = true ∨
        strStartsWith c.qdrant_url "https://" = true) →
      rustToLowercase c.log_level ∈ valid_levels →
      rustToLowercase c.log_format ∈ valid_formats →
      c.qdrant_collection_name = "" →
      c.validate = .error (.MissingField "QDRANT_COLLECTION_NAME") ∧
      strContains (ConfigurationError.render
        (.MissingField "QDRANT_COLLECTION_NAME")) "QDRANT_COLLECTION_NAME") ∧
    (∀ c : Config, 1024 ≤ c.port → 1024 ≤ c.metrics_port →
      c.similarity_threshold.inUnitRange = true → 1 ≤ c.cache_ttl_hours →
      1 ≤ c.workers → c.workers ≤ 128 → 1 ≤ c.max_cache_size →
      1 ≤ c.embedding_dimension → c.embedding_dimension ≤ 4096 →
      (strStartsWith c.qdrant_url "http://" = true ∨
        strStartsWith c.qdrant_url "https://" = true) →
      rustToLowercase c.log_level ∈ valid_levels →
      rustToLowercase c.log_format ∈ valid_formats →
      c.qdrant_collection_name ≠ "" →
      (c.qdrant_collection_name.data.all fun ch =>
        rustIsAlphanumeric ch || ch == '_' || ch == '-') = false →
      c.validate = .error (.InvalidFormat "QDRANT_COLLECTION_NAME"
        c.qdrant_collection_name
        "Alphanumeric characters, underscores, and hyphens only") ∧
      strContains (ConfigurationError.render (.InvalidFormat
        "QDRANT_COLLECTION_NAME" c.qdrant_collection_name
        "Alphanumeric characters, underscores, and hyphens only"))
        "QDRANT_COLLECTION_NAME") := by
  refine ⟨fun c h => (validate_eq_ok_iff c).1 h, ?_, ?_, ?_, ?_, ?_, ?_, ?_, ?_, ?_, ?_, ?_, ?_⟩
  · refine fun c h1 => ⟨?_, strContains_render_range_field _ _ _ _⟩
    simp only [Config.validate, validate_port_eq_err c.port "RIPPLE_PORT" h1,
      error_bind]
  · refine fun c h1 h2 => ⟨?_, strContains_render_range_field _ _ _ _⟩
    simp only [Config.validate, (validate_port_eq_ok c.port "RIPPLE_PORT").2 h1,
      validate_port_eq_err c.metrics_port "METRICS_PORT" h2, ok_bind, error_bind]
  · refine fun c h1 h2 h3 => ⟨?_, strContains_render_range_field _ _ _ _⟩
    simp only [Config.validate, (validate_port_eq_ok c.port "RIPPLE_PORT").2 h1,
      (validate_port_eq_ok c.metrics_port "METRICS_PORT").2 h2,
      validate_sim_eq_err c h3, ok_bind, error_bind]
  · refine fun c h1 h2 h3 h4 => ⟨?_, strContains_render_range_field _ _ _ _⟩
    simp only [Config.validate, (validate_port_eq_ok c.port "RIPPLE_PORT").2 h1,
      (validate_port_eq_ok c.metrics_port "METRICS_PORT").2 h2,
      (validate_sim_eq_ok c).2 h3, validate_ttl_eq_err c h4, ok_bind, error_bind]
  · refine fun c h1 h2 h3 h4 h5 => ⟨?_, strContains_render_range_field _ _ _ _⟩
    simp only [Config.validate, (validate_port_eq_ok c.port "RIPPLE_PORT").2 h1,
      (validate_port_eq_ok c.metrics_port "METRICS_PORT").2 h2,
      (validate_sim_eq_ok c).2 h3, (validate_ttl_eq_ok c).2 h4,
      validate_workers_eq_err c h5, ok_bind, error_bind]
  · refine fun c h1 h2 h3 h4 h5 h6 h7 => ⟨?_, strContains_render_range_field _ _ _ _⟩
    simp only [Config.validate, (validate_port_eq_ok c.port "RIPPLE_PORT").2 h1,
      (validate_port_eq_ok c.metrics_port "METRICS_PORT").2 h2,
      (validate_sim_eq_ok c).2 h3, (validate_ttl_eq_ok c).2 h4,
      (validate_workers_eq_ok c).2 ⟨h5, h6⟩, validate_cache_eq_err c h7,
      ok_bind, error_bind]
  · refine fun c h1 h2 h3 h4 h5 h6 h7 h8 => ⟨?_, strContains_render_range_field _ _ _ _⟩
    simp only [Config.validate, (validate_port_eq_ok c.port "RIPPLE_PORT").2 h1,
      (validate_port_eq_ok c.metrics_port "METRICS_PORT").2 h2,
      (validate_sim_eq_ok c).2 h3, (validate_ttl_eq_ok c).2 h4,
      (validate_workers_eq_ok c).2 ⟨h5, h6⟩, (validate_cache_eq_ok c).2 h7,
      validate_dim_eq_err c h8, ok_bind, error_bind]
  · refine fun c h1 h2 h3 h4 h5 h6 h7 h8 h9 h10 h11 =>
      ⟨?_, strContains_render_format_field _ _ _⟩
    simp only [Config.validate, (validate_port_eq_ok c.port "RIPPLE_PORT").2 h1,
      (validate_port_eq_ok c.metrics_port "METRICS_PORT").2 h2,
      (validate_sim_eq_ok c).2 h3, (validate_ttl_eq_ok c).2 h4,
      (validate_workers_eq_ok c).2 ⟨h5, h6⟩, (validate_cache_eq_ok c).2 h7,
      (validate_dim_eq_ok c).2 ⟨h8, h9⟩,
      validate_url_eq_err c.qdrant_url "QDRANT_URL" h10 h11, ok_bind, error_bind]
  · refine fun c h1 h2 h3 h4 h5 h6 h7 h8 h9 h10 h11 =>
      ⟨?_, strContains_render_format_field _ _ _⟩
    simp only [Config.validate, (validate_port_eq_ok c.port "RIPPLE_PORT").2 h1,
      (validate_port_eq_ok c.metrics_port "METRICS_PORT").2 h2,
      (validate_sim_eq_ok c).2 h3, (validate_ttl_eq_ok c).2 h4,
      (validate_workers_eq_ok c).2 ⟨h5, h6⟩, (validate_cache_eq_ok c).2 h7,
      (validate_dim_eq_ok c).2 ⟨h8, h9⟩,
      (validate_url_eq_ok c.qdrant_url "QDRANT_URL").2 h10,
      validate_level_eq_err c h11, ok_bind, error_bind]
  · refine fun c h1 h2 h3 h4 h5 h6 h7 h8 h9 h10 h11 h12 =>
      ⟨?_, strContains_render_format_field _ _ _⟩
    simp only [Config.validate, (validate_port_eq_ok c.port "RIPPLE_PORT").2 h1,
      (validate_port_eq_ok c.metrics_port "METRICS_PORT").2 h2,
      (validate_sim_eq_ok c).2 h3, (validate_ttl_eq_ok c).2 h4,
      (validate_workers_eq_ok c).2 ⟨h5, h6⟩, (validate_cache_eq_ok c).2 h7,
      (validate_dim_eq_ok c).2 ⟨h8, h9⟩,
      (validate_url_eq_ok c.qdrant_url "QDRANT_URL").2 h10,
      (validate_level_eq_ok c).2 h11, validate_format_eq_err c h12,
      ok_bind, error_bind]
  · refine fun c h1 h2 h3 h4 h5 h6 h7 h8 h9 h10 h11 h12 h13 =>
      ⟨?_, strContains_render_missing_field _⟩
    simp only [Config.validate, (validate_port_eq_ok c.port "RIPPLE_PORT").2 h1,
      (validate_port_eq_ok c.metrics_port "METRICS_PORT").2 h2,
      (validate_sim_eq_ok c).2 h3, (validate_ttl_eq_ok c).2 h4,
      (validate_workers_eq_ok c).2 ⟨h5, h6⟩, (validate_cache_eq_ok c).2 h7,
      (validate_dim_eq_ok c).2 ⟨h8, h9⟩,
      (validate_url_eq_ok c.qdrant_url "QDRANT_URL").2 h10,
      (validate_level_eq_ok c).2 h11, (validate_format_eq_ok c).2 h12,
      validate_collname_eq_err_empty c h13, ok_bind, error_bind]
  · refine fun c h1 h2 h3 h4 h5 h6 h7 h8 h9 h10 h11 h12 h13 h14 =>
      ⟨?_, strContains_render_format_field _ _ _⟩
    have hne : ¬ c.qdrant_collection_name.data.isEmpty = true := by
      rw [List.isEmpty_iff]
      exact fun hd => h13 ((str_eq_empty_iff _).mpr hd)
    simp only [Config.validate, (validate_port_eq_ok c.port "RIPPLE_PORT").2 h1,
      (validate_port_eq_ok c.metrics_port "METRICS_PORT").2 h2,
      (validate_sim_eq_ok c).2 h3, (validate_ttl_eq_ok c).2 h4,
      (validate_workers_eq_ok c).2 ⟨h5, h6⟩, (validate_cache_eq_ok c).2 h7,
      (validate_dim_eq_ok c).2 ⟨h8, h9⟩,
      (validate_url_eq_ok c.qdrant_url "QDRANT_URL").2 h10,
      (validate_level_eq_ok c).2 h11, (validate_format_eq_ok c).2 h12,
      validate_collname_eq_err_format c hne h14, ok_bind, error_bind]

/-- C4 witness: a similarity threshold of 1.5 (all other fields at their
defaults) is rejected with an `InvalidRange` error naming
`SIMILARITY_THRESHOLD`, whose rendered message contains the field name. -/
theorem claim_C4_witness :
    Config.validate { baseConfig with similarity_threshold := .val (mkRat 15 10) } =
      .error (.InvalidRange "SIMILARITY_THRESHOLD" "1.5" "0.0" "1.0") ∧
    strContains (ConfigurationError.render
      (.InvalidRange "SIMILARITY_THRESHOLD" "1.5" "0.0" "1.0"))
      "SIMILARITY_THRESHOLD" := by
  have h := claim_C4_validate_errors_identify_rule.2.2.2.1
    { baseConfig with similarity_threshold := .val (mkRat 15 10) }
    (by decide) (by decide) (by decide)
  refine ⟨?_, by decide⟩
  rw [h.1]
  decide

/-- C10: a NaN similarity threshold never validates — the IEEE
inclusive-range test `(0.0..=1.0).contains` is false for NaN, so
`validate_similarity_threshold` rejects it with an `InvalidRange` error
for `SIMILARITY_THRESHOLD` (value rendered as `"NaN"`), and consequently
no configuration accepted by `validate` carries a NaN threshold. -/
theorem claim_C10_nan_rejected :
    (∀ c : Config, c.similarity_threshold = .nan →
      c.validate_similarity_threshold =
        .error (.InvalidRange "SIMILARITY_THRESHOLD" "NaN" "0.0" "1.0")) ∧
    (∀ c : Config, c.validate = .ok () → c.similarity_threshold ≠ .nan) := by
  constructor
  · intro c h
    rw [validate_sim_eq_err c (by rw [h]; rfl), h]
    rfl
  · intro c hok hnan
    have h3 := ((validate_eq_ok_iff c).1 hok).2.2.1
    rw [hnan] at h3
    exact absurd h3 (by decide)

/-- C10 witness: the default configuration with its threshold replaced by
NaN is rejected with the `SIMILARITY_THRESHOLD` range error. -/
theorem claim_C10_witness :
    Config.validate_similarity_threshold
      { baseConfig with similarity_threshold := .nan } =
      .error (.InvalidRange "SIMILARITY_THRESHOLD" "NaN" "0.0" "1.0") :=
  claim_C10_nan_rejected.1 { baseConfig with similarity_threshold := .nan } rfl

/-- C6: for a setting with a typed default, an absent environment
variable yields exactly the default, and a present value whose parse
fails yields a `ParseError` carrying the field name, the raw value, the
target type name and the underlying parser message — never the
default. -/
theorem claim_C6_parse_env {T : Type} (key : String) (default : T)
    (typeName : String) (parse : String → Except String T) :
    parse_env none key default typeName parse = .ok default ∧
    (∀ v e, parse v = .error e →
      parse_env (some v) key default typeName parse =
        .error (.ParseError key v typeName e)) := by
  refine ⟨rfl, fun v e h => ?_⟩
  simp only [parse_env, h]

/-- C6 witness: an absent `RIPPLE_PORT` yields the default 8080; the
present malformed value `"abc"` yields the `ParseError` with field name,
raw value, type name and the `u16` parser's message. -/
theorem claim_C6_witness :
    parse_env none "RIPPLE_PORT" 8080 "u16" parse_u16 = .ok 8080 ∧
    parse_env (some "abc") "RIPPLE_PORT" 8080 "u16" parse_u16 =
      .error (.ParseError "RIPPLE_PORT" "abc" "u16" "invalid digit found in string") :=
  ⟨(claim_C6_parse_env "RIPPLE_PORT" 8080 "u16" parse_u16).1,
   (claim_C6_parse_env "RIPPLE_PORT" 8080 "u16" parse_u16).2 "abc"
     "invalid digit found in string" (by decide)⟩

/-- C2 counterexample: the claim requires `InvalidFormat` for any
non-empty name containing a character outside `[A-Za-z0-9_-]`, but the
code's check is Rust's Unicode `char::is_alphanumeric`: the name `"é"`
is non-empty, its character lies outside `[A-Za-z0-9_-]`, yet
`validate_collection_name` accepts it. -/
theorem claim_C2_counterexample :
    ("é" : String) ≠ "" ∧
    (("é" : String).data.all fun ch =>
      ch.isAlpha || ch.isDigit || ch == '_' || ch == '-') = false ∧
    Config.validate_collection_name
      { baseConfig with qdrant_collection_name := "é" } = .ok () := by
  refine ⟨by decide, by decide, by decide⟩

/-- C2 (amended): over names within the Basic Latin and Latin-1 blocks
(where the embedding of `char::is_alphanumeric` is exact),
`validate_collection_name` fails with `MissingField` exactly when the
name is empty, fails with `InvalidFormat` exactly when the non-empty
name contains a character that is neither alphanumeric in the Unicode
sense nor underscore nor hyphen, and succeeds otherwise. -/
theorem claim_C2_collection_name (c : Config)
    (_hblk : ∀ ch ∈ c.qdrant_collection_name.data, ch.toNat < 256) :
    (c.validate_collection_name = .error (.MissingField "QDRANT_COLLECTION_NAME") ↔
      c.qdrant_collection_name = "") ∧
    ((∃ v e, c.validate_collection_name =
        .error (.InvalidFormat "QDRANT_COLLECTION_NAME" v e)) ↔
      (c.qdrant_collection_name ≠ "" ∧
        ∃ ch ∈ c.qdrant_collection_name.data,
          ¬(rustIsAlphanumeric ch = true ∨ ch = '_' ∨ ch = '-'))) ∧
    (c.validate_collection_name = .ok () ↔
      (c.qdrant_collection_name ≠ "" ∧
        ∀ ch ∈ c.qdrant_collection_name.data,
          rustIsAlphanumeric ch = true ∨ ch = '_' ∨ ch = '-')) := by
  unfold Config.validate_collection_name
  by_cases h1 : c.qdrant_collection_name.data.isEmpty = true
  · rw [if_pos h1]
    rw [List.isEmpty_iff] at h1
    have he : c.qdrant_collection_name = "" := (str_eq_empty_iff _).mpr h1
    refine ⟨⟨fun _ => he, fun _ => rfl⟩, ?_, ?_⟩
    · constructor
      · rintro ⟨v, e, hve⟩
        exact absurd hve (by simp)
      · rintro ⟨hn, -⟩
        exact absurd he hn
    · constructor
      · intro hx
        exact absurd hx (by simp)
      · rintro ⟨hn, -⟩
        exact absurd he hn
  · rw [if_neg h1]
    have h1' : c.qdrant_collection_name.data ≠ [] := by
      simpa [List.isEmpty_iff] using h1
    have hne : c.qdrant_collection_name ≠ "" :=
      fun hd => h1' ((str_eq_empty_iff _).mp hd)
    by_cases h2 : (c.qdrant_collection_name.data.all fun ch =>
        rustIsAlphanumeric ch || ch == '_' || ch == '-') = true
    · rw [if_neg (by simp [h2])]
      simp only [List.all_eq_true, Bool.or_eq_true, beq_iff_eq, or_assoc] at h2
      refine ⟨?_, ?_, ⟨fun _ => ⟨hne, h2⟩, fun _ => rfl⟩⟩
      · constructor
        · intro hx
          exact absurd hx (by simp)
        · intro hx
          exact absurd hx hne
      · constructor
        · rintro ⟨v, e, hve⟩
          exact absurd hve (by simp)
        · rintro ⟨-, ch, hch, hbad⟩
          exact (hbad (h2 ch hch)).elim
    · rw [if_pos (by simpa using h2)]
      simp only [List.all_eq_true, Bool.or_eq_true, beq_iff_eq, or_assoc] at h2
      push_neg at h2
      obtain ⟨ch, hch, hbad⟩ := h2
      refine ⟨?_, ?_, ?_⟩
      · constructor
        · intro hx
          exact absurd hx (by simp)
        · intro hx
          exact absurd hx hne
      · constructor
        · intro _
          exact ⟨hne, ch, hch, by tauto⟩
        · intro _
          exact ⟨c.qdrant_collection_name, _, rfl⟩
      · constructor
        · intro hx
          exact absurd hx (by simp)
        · rintro ⟨-, hall⟩
          exact absurd (hall ch hch) (by tauto)

/-- C2 witness: the default collection name `"cache_vectors"` lies in the
Latin-1 range, is non-empty with every character allowed, and is
accepted. -/
theorem claim_C2_witness :
    Config.validate_collection_name baseConfig = .ok () :=
  (claim_C2_collection_name baseConfig (by decide)).2.2.mpr ⟨by decide, by decide⟩

end Ripple


